import Mathlib

/-!
Verification of the cliserver ZMODEM receive engine (`zm_receive.c`,
`zm_proto.c`, `zm_utils.c`, `zmodem.h`) against its specification.

The C sources are shallowly embedded: machine bytes become `Nat` (masked
with `&&& 0xff` where the C code truncates), buffers become `List Nat`,
the session structure `struct zmr_state_s`/`struct zm_state_s` becomes the
Lean structure `ZmState`, and every side effect (bytes written to the
remote peer, `on_receive` callbacks, state-machine events raised, integer
return codes) is returned explicitly.  Constants and helpers that live in
the repository's missing `zm.h`/`crc16.h`/`crc32.h` headers are modelled
from the specification and marked as such in their doc comments.
-/

set_option maxRecDepth 16000

namespace Cliserver

/-! Byte constants of the wire protocol (`zmodem.h` and spec section 6). -/

def ZPAD : Nat := 0x2a

def ZDLE : Nat := 0x18

def ZBIN : Nat := 0x41

def ZHEX : Nat := 0x42

def ZBIN32 : Nat := 0x43

def ZRUB0 : Nat := 0x6c

def ZRUB1 : Nat := 0x6d

def ASCII_CAN : Nat := 0x18

def ASCII_XON : Nat := 0x11

def ASCII_XOFF : Nat := 0x13

def ASCII_BS : Nat := 0x08

def ASCII_DLE : Nat := 0x10

def ASCII_DC1 : Nat := 0x11

def ASCII_DC3 : Nat := 0x13

def ASCII_GS : Nat := 0x1d

def ASCII_DEL : Nat := 0x7f

/-- Modelled from the spec: frame type codes (spec section 6); the numeric
values live in the repository's missing `zm.h` header. -/
def ZRQINIT : Nat := 0

def ZRINIT : Nat := 1

def ZSINIT : Nat := 2

def ZACK : Nat := 3

def ZFILE : Nat := 4

def ZSKIP : Nat := 5

def ZNAK : Nat := 6

def ZABORT : Nat := 7

def ZFIN : Nat := 8

def ZRPOS : Nat := 9

def ZDATA : Nat := 10

def ZEOF : Nat := 11

def ZFERR : Nat := 12

def ZCRC : Nat := 13

def ZCHALLENGE : Nat := 14

def ZCOMPL : Nat := 15

def ZCAN : Nat := 16

def ZFREECNT : Nat := 17

def ZCOMMAND : Nat := 18

def ZSTDERR : Nat := 19

/-- Modelled from the spec: data subpacket terminator codes (spec section 6). -/
def ZCRCE : Nat := 0x68

def ZCRCG : Nat := 0x69

def ZCRCQ : Nat := 0x6a

def ZCRCW : Nat := 0x6b

/-- Modelled from the spec: `ZCNL` conversion flag checked by
`zmr_filedata` (`f0 == ZCNL`); value from the missing `zm.h`. -/
def ZCNL : Nat := 2

/-- Modelled from the spec: file-management option mask used by
`zmr_filename`; the value mirrors `XM_OPTION_CRC = 2` of `zmodem.h`. -/
def ZMCRC : Nat := 2

/-- Modelled from the spec: file-management option mask of the missing
`zm.h`. -/
def ZMMASK : Nat := 0x1f

/-- Modelled from the spec: sender capability bit tested by `zmr_zsinit`
("escape all control characters"); value from the missing `zm.h`. -/
def TESCCTL : Nat := 0x40

/-- Modelled from the spec: attention-string break marker filtered out by
`zmr_fileerror`; value from the missing `zm.h`. -/
def ATTNBRK : Nat := 0xdd

/-- Modelled from the spec: attention-string pause marker filtered out by
`zmr_fileerror`; value from the missing `zm.h`. -/
def ATTNPSE : Nat := 0xde

/-! Configuration constants of `zmodem.h`. -/

def CONFIG_SYSTEM_ZMODEM_PKTBUFSIZE : Nat := 512

def CONFIG_SYSTEM_ZMODEM_RCVBUFSIZE : Nat := 512

def CONFIG_SYSTEM_ZMODEM_MAXERRORS : Nat := 20

def CONFIG_SYSTEM_ZMODEM_SERIALNO : Nat := 1

def CONFIG_SYSTEM_ZMODEM_RESPTIME : Nat := 10

def CONFIG_SYSTEM_ZMODEM_CONNTIME : Nat := 30

/-- Modelled from the spec: `ZM_PKTBUFSIZE` of the missing `zm.h` is the
configured packet buffer size. -/
def ZM_PKTBUFSIZE : Nat := CONFIG_SYSTEM_ZMODEM_PKTBUFSIZE

/-- Modelled from the spec: status code `XFRDONE = 1` (spec section 6). -/
def ZM_XFRDONE : Int := 1

/-- Modelled from the spec: POSIX errno values used through negated
returns (spec status codes); numeric values are the standard Linux ones. -/
def EIO_errno : Int := 5

def ETIMEDOUT : Int := 110

def EPERM : Int := 1

/-- Global zero-filled header payload (`g_zeroes` of `zm_utils.c`). -/
def g_zeroes : List Nat := [0, 0, 0, 0]

/-- Session abort sequence of `zm_proto.c`: eight CAN characters followed
by ten backspace characters (`g_canistr`, `CANISTR_SIZE = 8 + 10`). -/
def g_canistr : List Nat :=
  List.replicate 8 ASCII_CAN ++ List.replicate 10 ASCII_BS

/-! CRC primitives.  The repository includes `crc16.h`/`crc32.h` whose
implementations are not under `src/`; both are modelled from the spec
(section 4.1): CRC-16/XMODEM (polynomial 0x1021, MSB first) and the
standard reflected CRC-32 (polynomial 0xEDB88320). -/

/-- Modelled from the spec: one shift step of the CRC-16/XMODEM update. -/
def crc16bit (c : Nat) : Nat :=
  if c &&& 0x8000 ≠ 0 then ((c <<< 1) ^^^ 0x1021) &&& 0xffff
  else (c <<< 1) &&& 0xffff

/-- Iterate `crc16bit` a given number of times. -/
def crc16bits : Nat → Nat → Nat
  | 0, c => c
  | n + 1, c => crc16bits n (crc16bit c)

/-- Modelled from the spec: incremental CRC-16 over a byte list
(`crc16part(data, len, init)` of the missing `crc16.h`). -/
def crc16part (data : List Nat) (crc : Nat) : Nat :=
  data.foldl (fun c b => crc16bits 8 (c ^^^ ((b &&& 0xff) <<< 8))) crc

/-- Modelled from the spec: one shift step of the reflected CRC-32
update. -/
def crc32bit (c : Nat) : Nat :=
  if c &&& 1 = 1 then (c >>> 1) ^^^ 0xedb88320 else c >>> 1

/-- Iterate `crc32bit` a given number of times. -/
def crc32bits : Nat → Nat → Nat
  | 0, c => c
  | n + 1, c => crc32bits n (crc32bit c)

/-- Modelled from the spec: incremental CRC-32 over a byte list
(`crc32part(data, len, init)` of the missing `crc32.h`). -/
def crc32part (data : List Nat) (crc : Nat) : Nat :=
  data.foldl (fun c b => crc32bits 8 (c ^^^ (b &&& 0xff))) crc

/-! Byte utilities of `zm_utils.c`. -/

/-- Decode four bytes into a 32-bit value (`zm_bytobe32`): byte 0 is the
least significant byte, exactly as the source computes it. -/
def zm_bytobe32 (v : List Nat) : Nat :=
  (v.getD 3 0) <<< 24 ||| (v.getD 2 0) <<< 16 ||| (v.getD 1 0) <<< 8 ||| v.getD 0 0

/-- Encode a 32-bit value into four bytes (`zm_be32toby`): byte 0 receives
the least significant byte, as in the source. -/
def zm_be32toby (v : Nat) : List Nat :=
  [v &&& 0xff, (v >>> 8) &&& 0xff, (v >>> 16) &&& 0xff, (v >>> 24) &&& 0xff]

/-- Encode a nibble as a lowercase hex digit (`zm_encnibble`). -/
def zm_encnibble (n : Nat) : Nat :=
  if n < 10 then n + 0x30 else n + 0x61 - 10

/-- Decode a hex digit to its nibble value (`zm_decnibble`). -/
def zm_decnibble (h : Nat) : Nat :=
  if h ≤ 0x39 then h - 0x30
  else if h ≤ 0x46 then h - 0x41 + 10
  else h - 0x61 + 10

/-- Emit a byte as two hex digits (`zm_puthex8`). -/
def zm_puthex8 (ch : Nat) : List Nat :=
  [zm_encnibble ((ch >>> 4) &&& 0xf), zm_encnibble (ch &&& 0xf)]

/-- Hexadecimal digit test (`isxdigit` of ctype, as used by
`zm_header`). -/
def isxdigit (c : Nat) : Bool :=
  decide ((0x30 ≤ c ∧ c ≤ 0x39) ∨ (0x41 ≤ c ∧ c ≤ 0x46) ∨ (0x61 ≤ c ∧ c ≤ 0x66))

/-! The session data model (`struct zm_state_s` embedded in
`struct zmr_state_s`; the receiver fields are flattened in). -/

/-- Parser state `pstate` (`PSTATE_IDLE`, `PSTATE_HEADER`,
`PSTATE_DATA`). -/
inductive PState
  | idle
  | header
  | data
deriving DecidableEq

/-- Parser substate `psubstate` (`PIDLE_ZPAD`, `PIDLE_ZDLE`, `PIDLE_OO`,
`PHEADER_FORMAT`, `PHEADER_PAYLOAD`, `PHEADER_LSPAYLOAD`, `PDATA_READ`,
`PDATA_CRC`). -/
inductive PSubState
  | zpad
  | zdle
  | oo
  | format
  | payload
  | lspayload
  | read
  | crc
deriving DecidableEq

/-- Receive state machine state (`enum zmrs_e` of `zm_receive.c`). -/
inductive ZmrState
  | start
  | initwait
  | fileinfo
  | crcwait
  | readready
  | reading
  | finish
  | command
  | message
  | done
deriving DecidableEq

/-- The receive session.  The `ZM_FLAG_*` bitset is modelled as one
boolean field per flag; buffers `hdrdata` and `pktbuf` are byte lists
(`pktbuf` holds the bytes at indices `0 ..` and is written through
truncate-and-append, matching a C store at index `pktlen`). -/
structure ZmState where
  state : ZmrState
  pstate : PState
  psubstate : PSubState
  esc : Bool
  escctrl : Bool
  crc32flag : Bool
  crkok : Bool
  atsign : Bool
  oo : Bool
  wait : Bool
  hdrfmt : Nat
  hdrdata : List Nat
  hdrndx : Nat
  pktbuf : List Nat
  pktlen : Nat
  pkttype : Nat
  ncrc : Nat
  ncan : Nat
  nerrors : Nat
  ntimeouts : Nat
  timeout : Nat
  offset : Nat
  filesize : Nat
  f0 : Nat
  f1 : Nat
  scaps : Nat
  rcaps : Nat
  fileCrc : Nat
  attn : Option (List Nat)
  filename : Option (List Nat)
deriving DecidableEq

/-- Host `on_receive` callback: receives the decoded payload and the
`zcnl` flag, returns the C `int` result (negative aborts). -/
def Orecv : Type := List Nat → Bool → Int

/-- Result of one state-machine action: new session, bytes written to the
remote peer, `on_receive` invocations performed, and the `int` return. -/
structure ActOut where
  s : ZmState
  out : List Nat
  rcv : List (List Nat × Bool)
  ret : Int
deriving DecidableEq

/-- Result of handling one input byte (or of raising one event): adds the
trace of raised events and the `bdiscard` flag of the taken transition. -/
structure StepOut where
  s : ZmState
  out : List Nat
  rcv : List (List Nat × Bool)
  events : List Nat
  ret : Int
  discard : Bool
deriving DecidableEq

/-- Result of one `feed`/`zm_parse` call.  `stopped` records whether the
byte loop ended early (receive window flushed or nonzero return), i.e.
whether trailing input bytes were dropped. -/
structure ParseOut where
  s : ZmState
  out : List Nat
  rcv : List (List Nat × Bool)
  events : List Nat
  ret : Int
  stopped : Bool
deriving DecidableEq

/-! The escape codec and frame encoder of `zm_proto.c`. -/

/-- ZDLE escape condition of `zm_putzdle` (`zm_proto.c` lines 100-113),
as a function of the two session flags it reads. -/
def zm_needzdle (escctrl atsign : Bool) (ch : Nat) : Bool :=
  let ch7 := ch &&& 0x7f
  decide (ch = ZDLE ∨ ch7 = ASCII_DLE ∨ ch7 = ASCII_DC1 ∨ ch7 = ASCII_DC3 ∨
    ch7 = ASCII_GS ∨ (ch7 = 0x0d ∧ atsign = true) ∨
    (ch7 < 0x20 ∧ escctrl = true) ∨ ch7 = ASCII_DEL ∨ ch = 0xff)

/-- Transfer one byte to an output buffer with ZDLE escaping
(`zm_putzdle`).  Returns the emitted bytes and the updated session; the
ATSIGN flag tracks the 7-bit value of the unescaped input character,
exactly as the source computes `ch7` before modifying `ch`. -/
def zm_putzdle (s : ZmState) (ch : Nat) : List Nat × ZmState :=
  let ch7 := ch &&& 0x7f
  let outb :=
    if zm_needzdle s.escctrl s.atsign ch then
      [ZDLE, if ch = ASCII_DEL then ZRUB0 else if ch = 0xff then ZRUB1 else ch ^^^ 0x40]
    else [ch]
  (outb, { s with atsign := ch7 == 0x40 })

/-- Escape decoding rule of the parser (`zm_header` lines 1595-1629 and
the identical rule in `zm_data`): a ZDLE arms the escape, then `ZRUB0`
maps to DEL, `ZRUB1` to 0xFF, and anything else has bit 6 toggled. -/
def zm_unescape : Bool → List Nat → List Nat
  | _, [] => []
  | true, ch :: rest =>
    (if ch = ZRUB0 then ASCII_DEL else if ch = ZRUB1 then 0xff else ch ^^^ 0x40) ::
      zm_unescape false rest
  | false, ch :: rest =>
    if ch = ZDLE then zm_unescape true rest else ch :: zm_unescape false rest

/-- Send a ZHEX header (`zm_sendhexhdr` of `zm_proto.c`).  The function
only composes and writes bytes, so it is modelled as the emitted byte
list; the CRC is accumulated incrementally exactly as in the source,
including the `crc16part(g_zeroes, 2, crc)` step that folds two zero
filler bytes in before the CRC digits are emitted. -/
def zm_sendhexhdr (htype : Nat) (buf : List Nat) : List Nat :=
  let b0 := buf.getD 0 0
  let b1 := buf.getD 1 0
  let b2 := buf.getD 2 0
  let b3 := buf.getD 3 0
  let crc1 := crc16part [htype &&& 0xff] 0
  let crc2 := crc16part [b0, b1, b2, b3] crc1
  let crc := crc16part [0, 0] crc2
  [ZPAD, ZPAD, ZDLE, ZHEX] ++
    zm_puthex8 (htype &&& 0xff) ++
    zm_puthex8 b0 ++ zm_puthex8 b1 ++ zm_puthex8 b2 ++ zm_puthex8 b3 ++
    zm_puthex8 ((crc >>> 8) &&& 0xff) ++ zm_puthex8 (crc &&& 0xff) ++
    [0x0d, 0x0a] ++
    (if htype ≠ ZACK ∧ htype ≠ ZFIN then [ASCII_XON] else [])

/-! State machine transition actions (`zm_receive.c`). -/

/-- Enter `PSTATE_DATA` (`zm_readstate`). -/
def zm_readstate (s : ZmState) : ZmState :=
  { s with pstate := .data, psubstate := .read, pktlen := 0, ncrc := 0 }

/-- Resend ZRINIT (`zmr_zrinit`). -/
def zmr_zrinit (_f : Orecv) (s : ZmState) : ActOut :=
  let s1 := { s with state := .start, oo := false,
                     timeout := CONFIG_SYSTEM_ZMODEM_RESPTIME }
  ⟨s1,
   zm_sendhexhdr ZRINIT
     [CONFIG_SYSTEM_ZMODEM_PKTBUFSIZE &&& 0xff,
      (CONFIG_SYSTEM_ZMODEM_PKTBUFSIZE >>> 8) &&& 0xff, 0, s.rcaps],
   [], 0⟩

/-- Received ZSINIT (`zmr_zsinit`): record sender capabilities, set the
ESCCTRL flag from `TESCCTL`, and arm `PSTATE_DATA`. -/
def zmr_zsinit (_f : Orecv) (s : ZmState) : ActOut :=
  let caps := s.hdrdata.getD 4 0
  ⟨zm_readstate { s with scaps := caps, escctrl := (caps &&& TESCCTL) != 0 },
   [], [], 0⟩

/-- Timeout in `ZMR_START` (`zmr_startto`).  The source increments
`ntimeouts`, resends ZRINIT when the count exceeds 4, and otherwise
returns `-ETIMEDOUT`. -/
def zmr_startto (f : Orecv) (s : ZmState) : ActOut :=
  let s1 := { s with ntimeouts := s.ntimeouts + 1 }
  if s1.ntimeouts > 4 then zmr_zrinit f s1
  else ⟨s1, [], [], -ETIMEDOUT⟩

/-- Received the ZSINIT data subpacket (`zmr_zsrintdata`): NAK on bad
CRC, otherwise store the attention string and ACK with the serial
number. -/
def zmr_zsrintdata (_f : Orecv) (s : ZmState) : ActOut :=
  let s1 := { s with pstate := .idle, psubstate := .zpad }
  if s.crkok = false then ⟨s1, zm_sendhexhdr ZNAK g_zeroes, [], 0⟩
  else
    let a := if s.pktbuf.getD 0 0 ≠ 0 then
               some (s.pktbuf.takeWhile (fun c => c != 0))
             else none
    ⟨{ s1 with attn := a },
     zm_sendhexhdr ZACK (zm_be32toby CONFIG_SYSTEM_ZMODEM_SERIALNO), [], 0⟩

/-- Respond to ZFREECNT (`zmr_freecnt`): ACK with 0xFFFFFFFF. -/
def zmr_freecnt (_f : Orecv) (s : ZmState) : ActOut :=
  ⟨s, zm_sendhexhdr ZACK (zm_be32toby 0xffffffff), [], 0⟩

/-- Open the output file and send ZRPOS (`zmr_openfile`; the file-system
part of the source is compiled out with `#if 0`, leaving the state change
and the ZRPOS reply). -/
def zmr_openfile (s : ZmState) (_crc : Nat) : ActOut :=
  ⟨{ s with state := .readready },
   zm_sendhexhdr ZRPOS (zm_be32toby s.offset), [], 0⟩

/-- Received the remote file CRC (`zmr_zcrc`). -/
def zmr_zcrc (_f : Orecv) (s : ZmState) : ActOut :=
  zmr_openfile { s with fileCrc := zm_bytobe32 s.hdrdata }
    (zm_bytobe32 (s.hdrdata.drop 1))

/-- Resend ZCRC after a NAK (`zmr_nakcrc`). -/
def zmr_nakcrc (_f : Orecv) (s : ZmState) : ActOut :=
  ⟨s, zm_sendhexhdr ZCRC g_zeroes, [], 0⟩

/-- Received ZFILE (`zmr_zfile`): reset the error count, cache the
conversion/management flags, and arm `PSTATE_DATA`. -/
def zmr_zfile (_f : Orecv) (s : ZmState) : ActOut :=
  ⟨zm_readstate { s with nerrors := 0, oo := false,
                         f0 := s.hdrdata.getD 4 0, f1 := s.hdrdata.getD 3 0 },
   [], [], 0⟩

/-- Attention bytes emitted by `zmr_fileerror`: the stored attention
string with `ATTNBRK` and `ATTNPSE` markers removed. -/
def zmrAttnBytes (s : ZmState) : List Nat :=
  match s.attn with
  | none => []
  | some a => (a.takeWhile (fun c => c != 0)).filter
      (fun c => c != ATTNBRK && c != ATTNPSE)

/-- Receiver-detected file error (`zmr_fileerror`): revert the parser to
IDLE, execute the attention sequence (copied through `pktbuf` and
NUL-terminated, as the source does), then send the given header. -/
def zmr_fileerror (s : ZmState) (htype : Nat) (data : Nat) : ActOut :=
  let s1 := { s with pstate := .idle, psubstate := .zpad }
  match s.attn with
  | none => ⟨s1, zm_sendhexhdr htype (zm_be32toby data), [], 0⟩
  | some _ =>
    let a := zmrAttnBytes s
    ⟨{ s1 with pktbuf := a ++ [0] ++ s1.pktbuf.drop (a.length + 1) },
     a ++ zm_sendhexhdr htype (zm_be32toby data), [], 0⟩

/-- Received ZDATA (`zmr_zdata`): verify the header position against the
session offset; mismatch triggers attention plus ZRPOS, otherwise arm
`PSTATE_DATA`. -/
def zmr_zdata (_f : Orecv) (s : ZmState) : ActOut :=
  if zm_bytobe32 (s.hdrdata.drop 1) ≠ s.offset then
    zmr_fileerror s ZRPOS s.offset
  else ⟨zm_readstate s, [], [], 0⟩

/-- Resend ZRPOS (`zmr_badrpos`). -/
def zmr_badrpos (_f : Orecv) (s : ZmState) : ActOut :=
  ⟨s, zm_sendhexhdr ZRPOS (zm_be32toby s.offset), [], 0⟩

/-- Parse an unsigned decimal ASCII field, as `sscanf("%lu")` does after
skipping leading spaces. -/
def parseDecField (l : List Nat) : Nat :=
  ((l.dropWhile (fun c => c == 0x20)).takeWhile
      (fun c => decide (0x30 ≤ c ∧ c ≤ 0x39))).foldl
    (fun acc c => acc * 10 + (c - 0x30)) 0

/-- Received the ZFILE data subpacket (`zmr_filename`): NAK on bad CRC;
otherwise drop any previous file name, parse the metadata after the
NUL-terminated name (only `filesize` is retained by the source; the other
`sscanf` fields land in discarded locals), then either request the file
CRC or open the file. -/
def zmr_filename (_f : Orecv) (s : ZmState) : ActOut :=
  let s1 := { s with pstate := .idle, psubstate := .zpad }
  if s.crkok = false then
    ⟨{ s1 with state := .start }, zm_sendhexhdr ZNAK g_zeroes, [], 0⟩
  else
    let after := (s.pktbuf.dropWhile (fun c => c != 0)).drop 1
    let s2 := { s1 with filename := none, filesize := parseDecField after }
    if s.f1 &&& ZMMASK = ZMCRC then
      ⟨{ s2 with state := .crcwait }, zm_sendhexhdr ZCRC g_zeroes, [], 0⟩
    else
      zmr_openfile { s2 with state := .readready } 0

/-- Received a file data subpacket in `ZMR_READING` (`zmr_filedata`).
On a CRC failure the error count is incremented and either the cancel
string is written (count above `MAXERRORS`, return `-EIO_errno`) or the session
reverts to `ZMR_READREADY` with attention plus ZRPOS.  On success the
payload is delivered through `on_receive`, the offset advances by
`pktlen`, and ZCRCQ/ZCRCW packets are acknowledged with `ZACK(offset)`. -/
def zmr_filedata (f : Orecv) (s : ZmState) : ActOut :=
  if s.crkok = false then
    let s1 := { s with nerrors := s.nerrors + 1 }
    if s1.nerrors > CONFIG_SYSTEM_ZMODEM_MAXERRORS then
      ⟨zm_readstate s1, g_canistr, [], -EIO_errno⟩
    else
      zmr_fileerror
        { s1 with state := .readready, pstate := .idle, psubstate := .zpad }
        ZRPOS s1.offset
  else
    let payload := s.pktbuf.take s.pktlen
    let zcnl := s.f0 == ZCNL
    let r := f payload zcnl
    if r < 0 then
      let fe := zmr_fileerror
        { s with state := .finish, pstate := .idle, psubstate := .zpad }
        ZFERR 0xffffffff
      ⟨fe.s, fe.out, [(payload, zcnl)], -(-EPERM)⟩
    else
      let s1 := { s with offset := s.offset + s.pktlen }
      let s2 := if s1.pkttype = ZCRCE ∨ s1.pkttype = ZCRCW then
                  { s1 with state := .readready, pstate := .idle,
                            psubstate := .zpad }
                else zm_readstate s1
      if s2.pkttype = ZCRCQ ∨ s2.pkttype = ZCRCW then
        ⟨s2, zm_sendhexhdr ZACK (zm_be32toby s2.offset), [(payload, zcnl)], 0⟩
      else ⟨s2, [], [(payload, zcnl)], 0⟩

/-- Timeout in `ZMR_INITWAIT`/`ZMR_FILEINFO` (`zmr_rcvto`): give up after
four timeouts, otherwise resend ZRINIT. -/
def zmr_rcvto (f : Orecv) (s : ZmState) : ActOut :=
  let s1 := { s with ntimeouts := s.ntimeouts + 1 }
  if s1.ntimeouts > 4 then ⟨s1, [], [], -ETIMEDOUT⟩
  else zmr_zrinit f s1

/-- Timeout in `ZMR_CRCWAIT`/`ZMR_READREADY`/`ZMR_READING`
(`zmr_fileto`): after two timeouts restart with ZRINIT, otherwise resend
ZCRC or ZRPOS depending on the state. -/
def zmr_fileto (f : Orecv) (s : ZmState) : ActOut :=
  let s1 := { s with ntimeouts := s.ntimeouts + 1 }
  if s1.ntimeouts > 2 then zmr_zrinit f { s1 with ntimeouts := 0 }
  else if s1.state = .crcwait then zmr_nakcrc f s1
  else zmr_badrpos f s1

/-- Received ZEOF (`zmr_zeof`): on a length mismatch fall back to
`ZMR_READREADY`; otherwise resend ZRINIT for the next file. -/
def zmr_zeof (f : Orecv) (s : ZmState) : ActOut :=
  if zm_bytobe32 (s.hdrdata.drop 1) ≠ s.offset then
    ⟨{ s with state := .readready }, [], [], 0⟩
  else zmr_zrinit f s

/-- Received command data (`zmr_cmddata`; not implemented in the
source). -/
def zmr_cmddata (_f : Orecv) (s : ZmState) : ActOut := ⟨s, [], [], 0⟩

/-- Received ZFIN (`zmr_zfin`): release per-file resources, flag that
"OO" may follow, and reply ZFIN.  The source assigns `pstate` twice
(`ZMR_FINISH` then `PSTATE_IDLE`); the net effect is `PSTATE_IDLE`. -/
def zmr_zfin (_f : Orecv) (s : ZmState) : ActOut :=
  ⟨{ s with pstate := .idle, psubstate := .zpad,
            filename := none, attn := none, oo := true },
   zm_sendhexhdr ZFIN g_zeroes, [], 0⟩

/-- Timeout in `ZMR_FINISH` (`zmr_finto`). -/
def zmr_finto (_f : Orecv) (s : ZmState) : ActOut :=
  ⟨{ s with ntimeouts := s.ntimeouts + 1, oo := false }, [], [], -ETIMEDOUT⟩

/-- Received "OO" in `ZMR_FINISH` (`zmr_oo`): transfer complete. -/
def zmr_oo (_f : Orecv) (s : ZmState) : ActOut := ⟨s, [], [], ZM_XFRDONE⟩

/-- Received ZSTDERR (`zmr_message`): arm `PSTATE_DATA` for the message
payload. -/
def zmr_message (_f : Orecv) (s : ZmState) : ActOut :=
  ⟨zm_readstate s, [], [], 0⟩

/-- Received ZSTDERR data (`zmr_zstderr`): NUL-terminate the packet
buffer and print it to the local stderr (the print is local I/O, not a
remote write). -/
def zmr_zstderr (_f : Orecv) (s : ZmState) : ActOut :=
  ⟨{ s with pktbuf := s.pktbuf.take s.pktlen ++ [0] ++
                        s.pktbuf.drop (s.pktlen + 1) },
   [], [], 0⟩

/-- Timeout waiting for command or stderr data (`zmr_cmdto`). -/
def zmr_cmdto (_f : Orecv) (s : ZmState) : ActOut := ⟨s, [], [], -ETIMEDOUT⟩

/-- Timeout in `ZMR_DONE` (`zmr_doneto`). -/
def zmr_doneto (_f : Orecv) (s : ZmState) : ActOut := ⟨s, [], [], -ETIMEDOUT⟩

/-- Unexpected event in the current state (`zmr_error`): set the WAIT
flag, drop any pending "OO" expectation, and continue. -/
def zmr_error (_f : Orecv) (s : ZmState) : ActOut :=
  ⟨{ s with wait := true, oo := false }, [], [], 0⟩

/-! Event codes and the transition tables. -/

/-- Modelled from the spec: header-type events carry the frame type code
itself (`zm_hdrevent` raises `zm_event(pzm, pzm->hdrdata[0])`), and the
engine-internal events `CANCEL`, `OO`, `DATARCVD`, `TIMEOUT`, `ERROR` of
the missing `zm.h` are distinct codes above the frame-type range. -/
def ZME_RQINIT : Nat := ZRQINIT

def ZME_SINIT : Nat := ZSINIT

def ZME_FILE : Nat := ZFILE

def ZME_NAK : Nat := ZNAK

def ZME_FIN : Nat := ZFIN

def ZME_DATA : Nat := ZDATA

def ZME_EOF : Nat := ZEOF

def ZME_CRC : Nat := ZCRC

def ZME_FREECNT : Nat := ZFREECNT

def ZME_COMMAND : Nat := ZCOMMAND

def ZME_STDERR : Nat := ZSTDERR

def ZME_CANCEL : Nat := 251

def ZME_OO : Nat := 252

def ZME_DATARCVD : Nat := 253

def ZME_TIMEOUT : Nat := 254

def ZME_ERROR : Nat := 255

/-- One row of a state transition table (`struct zm_transition_s`). -/
structure ZmTransition where
  evtype : Nat
  bdiscard : Bool
  next : ZmrState
  action : Orecv → ZmState → ActOut

/-- Transition table for `ZMR_START` (`g_zmr_start`). -/
def g_zmr_start : List ZmTransition :=
  [⟨ZME_SINIT, false, .initwait, zmr_zsinit⟩,
   ⟨ZME_FILE, false, .fileinfo, zmr_zfile⟩,
   ⟨ZME_RQINIT, false, .start, zmr_zrinit⟩,
   ⟨ZME_FIN, true, .finish, zmr_zfin⟩,
   ⟨ZME_NAK, true, .start, zmr_zrinit⟩,
   ⟨ZME_FREECNT, false, .start, zmr_freecnt⟩,
   ⟨ZME_COMMAND, false, .command, zmr_cmddata⟩,
   ⟨ZME_STDERR, false, .message, zmr_message⟩,
   ⟨ZME_TIMEOUT, false, .start, zmr_startto⟩,
   ⟨ZME_ERROR, false, .start, zmr_error⟩]

/-- Transition table for `ZMR_INITWAIT` (`g_zmr_initwait`). -/
def g_zmr_initwait : List ZmTransition :=
  [⟨ZME_DATARCVD, false, .start, zmr_zsrintdata⟩,
   ⟨ZME_TIMEOUT, false, .initwait, zmr_rcvto⟩,
   ⟨ZME_ERROR, false, .initwait, zmr_error⟩]

/-- Transition table for `ZMR_FILEINFO` (`g_zmr_fileinfo`). -/
def g_zmr_fileinfo : List ZmTransition :=
  [⟨ZME_DATARCVD, false, .readready, zmr_filename⟩,
   ⟨ZME_TIMEOUT, false, .fileinfo, zmr_rcvto⟩,
   ⟨ZME_ERROR, false, .fileinfo, zmr_error⟩]

/-- Transition table for `ZMR_CRCWAIT` (`g_zmr_crcwait`). -/
def g_zmr_crcwait : List ZmTransition :=
  [⟨ZME_CRC, false, .readready, zmr_zcrc⟩,
   ⟨ZME_NAK, false, .crcwait, zmr_nakcrc⟩,
   ⟨ZME_RQINIT, true, .start, zmr_zrinit⟩,
   ⟨ZME_FIN, true, .finish, zmr_zfin⟩,
   ⟨ZME_TIMEOUT, false, .crcwait, zmr_fileto⟩,
   ⟨ZME_ERROR, false, .crcwait, zmr_error⟩]

/-- Transition table for `ZMR_READREADY` (`g_zmr_readready`). -/
def g_zmr_readready : List ZmTransition :=
  [⟨ZME_DATA, false, .reading, zmr_zdata⟩,
   ⟨ZME_NAK, false, .readready, zmr_badrpos⟩,
   ⟨ZME_EOF, false, .start, zmr_zeof⟩,
   ⟨ZME_RQINIT, true, .start, zmr_zrinit⟩,
   ⟨ZME_FILE, false, .readready, zmr_badrpos⟩,
   ⟨ZME_FIN, true, .finish, zmr_zfin⟩,
   ⟨ZME_TIMEOUT, false, .readready, zmr_fileto⟩,
   ⟨ZME_ERROR, false, .readready, zmr_error⟩]

/-- Transition table for `ZMR_READING` (`g_zmr_reading`). -/
def g_zmr_reading : List ZmTransition :=
  [⟨ZME_RQINIT, true, .start, zmr_zrinit⟩,
   ⟨ZME_FILE, false, .fileinfo, zmr_zfile⟩,
   ⟨ZME_NAK, true, .readready, zmr_badrpos⟩,
   ⟨ZME_FIN, true, .finish, zmr_zfin⟩,
   ⟨ZME_DATA, false, .reading, zmr_zdata⟩,
   ⟨ZME_EOF, true, .start, zmr_zeof⟩,
   ⟨ZME_DATARCVD, false, .reading, zmr_filedata⟩,
   ⟨ZME_TIMEOUT, false, .reading, zmr_fileto⟩,
   ⟨ZME_ERROR, false, .reading, zmr_error⟩]

/-- Transition table for `ZMR_FINISH` (`g_zmr_finish`). -/
def g_zmr_finish : List ZmTransition :=
  [⟨ZME_RQINIT, true, .start, zmr_zrinit⟩,
   ⟨ZME_FILE, true, .fileinfo, zmr_zfile⟩,
   ⟨ZME_NAK, true, .finish, zmr_zfin⟩,
   ⟨ZME_FIN, true, .finish, zmr_zfin⟩,
   ⟨ZME_TIMEOUT, false, .reading, zmr_finto⟩,
   ⟨ZME_OO, false, .reading, zmr_oo⟩,
   ⟨ZME_ERROR, false, .finish, zmr_error⟩]

/-- Transition table for `ZMR_COMMAND` (`g_zmr_command`). -/
def g_zmr_command : List ZmTransition :=
  [⟨ZME_DATARCVD, false, .command, zmr_cmddata⟩,
   ⟨ZME_TIMEOUT, false, .command, zmr_cmdto⟩,
   ⟨ZME_ERROR, false, .command, zmr_error⟩]

/-- Transition table for `ZMR_MESSAGE` (`g_zmr_message`). -/
def g_zmr_message : List ZmTransition :=
  [⟨ZME_DATARCVD, false, .message, zmr_zstderr⟩,
   ⟨ZME_TIMEOUT, false, .message, zmr_cmdto⟩,
   ⟨ZME_ERROR, false, .message, zmr_error⟩]

/-- Transition table for `ZMR_DONE` (`g_zmr_done`). -/
def g_zmr_done : List ZmTransition :=
  [⟨ZME_TIMEOUT, false, .done, zmr_doneto⟩,
   ⟨ZME_ERROR, false, .done, zmr_error⟩]

/-- The state-indexed event table (`g_zmr_evtable`). -/
def g_zmr_evtable : ZmrState → List ZmTransition
  | .start => g_zmr_start
  | .initwait => g_zmr_initwait
  | .fileinfo => g_zmr_fileinfo
  | .crcwait => g_zmr_crcwait
  | .readready => g_zmr_readready
  | .reading => g_zmr_reading
  | .finish => g_zmr_finish
  | .command => g_zmr_command
  | .message => g_zmr_message
  | .done => g_zmr_done

/-- Table lookup of `zm_event`: scan until the entry matches the event or
the terminating `ZME_ERROR` wildcard is reached.  Every table in
`g_zmr_evtable` ends with a `ZME_ERROR` row, so the empty-list fallback
is never reached. -/
def zm_lookup : List ZmTransition → Nat → ZmTransition
  | [], _ => ⟨ZME_ERROR, false, .start, zmr_error⟩
  | e :: rest, ev =>
    if e.evtype = ZME_ERROR ∨ e.evtype = ev then e else zm_lookup rest ev

/-- Raise a state-machine event (`zm_event`): look up the transition,
move to its next state, and run its action.  The `bdiscard` flag of the
taken row is reported so the parser can flush the receive window. -/
def zm_event (f : Orecv) (s : ZmState) (ev : Nat) : StepOut :=
  let e := zm_lookup (g_zmr_evtable s.state) ev
  let a := e.action f { s with state := e.next }
  ⟨a.s, a.out, a.rcv, [ev], a.ret, e.bdiscard⟩

/-! The byte parser (`zm_receive.c` lines 1313-2014). -/

/-- A step that only updates the session: no output, no events, zero
return. -/
def noActionStep (s : ZmState) : StepOut := ⟨s, [], [], [], 0, false⟩

/-- NAK a malformed header (`zm_nakhdr`): revert to IDLE and send
ZNAK. -/
def zm_nakhdr (s : ZmState) : StepOut :=
  ⟨{ s with pstate := .idle, psubstate := .zpad },
   zm_sendhexhdr ZNAK g_zeroes, [], [], 0, false⟩

/-- CRC verdict of `zm_hdrevent`: CRC-32 over the 9 collected bytes must
equal the residue `0xDEBB20E3` for ZBIN32, CRC-16 over the 7 collected
bytes must equal 0 otherwise. -/
def zm_hdrcrcok (s : ZmState) : Bool :=
  if s.hdrfmt = ZBIN32 then
    crc32part (s.hdrdata.take 9) 0xffffffff == 0xdebb20e3
  else
    crc16part (s.hdrdata.take 7) 0 == 0

/-- Process a completely collected header (`zm_hdrevent`): revert to
IDLE, verify the CRC, and on success raise the event named by the header
type byte; on failure NAK. -/
def zm_hdrevent (f : Orecv) (s : ZmState) : StepOut :=
  let s1 := { s with pstate := .idle, psubstate := .zpad }
  if zm_hdrcrcok s then zm_event f s1 (s1.hdrdata.getD 0 0)
  else zm_nakhdr s1

/-- Process a completely collected data subpacket (`zm_dataevent`):
revert to IDLE, verify the CRC over the collected bytes (payload plus
terminator plus CRC), record the verdict in the CRKOK flag, strip the
terminator and CRC bytes from `pktlen`, and raise `ZME_DATARCVD`. -/
def zm_dataevent (f : Orecv) (s : ZmState) : StepOut :=
  let s1 := { s with pstate := .idle, psubstate := .zpad }
  if s.hdrfmt = ZBIN32 then
    zm_event f
      { s1 with crkok := crc32part (s.pktbuf.take s.pktlen) 0xffffffff == 0xdebb20e3,
                pktlen := s.pktlen - 5 }
      ZME_DATARCVD
  else
    zm_event f
      { s1 with crkok := crc16part (s.pktbuf.take s.pktlen) 0 == 0,
                pktlen := s.pktlen - 3 }
      ZME_DATARCVD

/-- Handle one byte in `PSTATE_IDLE` (`zm_idle`): hunt for ZPAD..ZDLE, and
track the end-of-session "OO" sequence when the OO flag is set.  In the
source a ZDLE that does not follow a ZPAD resets the substate and then
falls through into the `'O'` case, so it too can count as an 'O'. -/
def zm_idle (f : Orecv) (s : ZmState) (ch : Nat) : StepOut :=
  if ch = ZPAD then noActionStep { s with psubstate := .zdle }
  else if ch = ZDLE ∧ s.psubstate = .zdle then
    noActionStep { s with oo := false, pstate := .header, psubstate := .format }
  else
    let s1 := if ch = ZDLE then { s with psubstate := .zpad } else s
    if (ch = ZDLE ∨ ch = 0x4f) ∧ s1.oo = true then
      if s1.psubstate = .oo then
        zm_event f { s1 with oo := false, psubstate := .zpad } ZME_OO
      else noActionStep { s1 with psubstate := .oo }
    else noActionStep { s1 with psubstate := .zpad }

/-- Handle one byte in `PSTATE_HEADER` (`zm_header`): dispatch on the
format byte, then collect the payload, ZDLE-unescaping on the fly and
decoding hex digit pairs for ZHEX. -/
def zm_header (f : Orecv) (s : ZmState) (ch : Nat) : StepOut :=
  if ch = ZDLE ∧ s.esc = false then noActionStep { s with esc := true }
  else
    let c2 := if s.esc then
                (if ch = ZRUB0 then ASCII_DEL
                 else if ch = ZRUB1 then 0xff else ch ^^^ 0x40)
              else ch
    let s1 := { s with esc := false }
    match s1.psubstate with
    | .format =>
      if c2 = ZHEX ∨ c2 = ZBIN ∨ c2 = ZBIN32 then
        noActionStep { s1 with hdrfmt := c2, psubstate := .payload, hdrndx := 0 }
      else zm_nakhdr s1
    | .payload =>
      if s1.hdrfmt = ZHEX then
        if isxdigit c2 then
          noActionStep
            { s1 with hdrdata := s1.hdrdata.set s1.hdrndx (zm_decnibble c2 <<< 4),
                      psubstate := .lspayload }
        else zm_nakhdr s1
      else if s1.hdrfmt = ZBIN ∨ s1.hdrfmt = ZBIN32 then
        let s2 := { s1 with hdrdata := s1.hdrdata.set s1.hdrndx c2 }
        let nd := s1.hdrndx + 1
        if nd ≥ 9 ∨ (s1.hdrfmt = ZBIN ∧ nd ≥ 7) then zm_hdrevent f s2
        else noActionStep { s2 with psubstate := .payload, hdrndx := nd }
      else noActionStep s1
    | .lspayload =>
      if s1.hdrfmt = ZHEX ∧ isxdigit c2 = true then
        let s2 := { s1 with
          hdrdata := s1.hdrdata.set s1.hdrndx
            (s1.hdrdata.getD s1.hdrndx 0 ||| zm_decnibble c2) }
        let nd := s1.hdrndx + 1
        if nd ≥ 7 then zm_hdrevent f s2
        else noActionStep { s2 with psubstate := .payload, hdrndx := nd }
      else zm_nakhdr s1
    | _ => noActionStep s1

/-- Store one decoded byte into the packet buffer and run the CRC
countdown (`zm_data` lines 1878-1902). -/
def zm_data_store (f : Orecv) (s : ZmState) (ch : Nat) : StepOut :=
  let s1 := { s with pktbuf := s.pktbuf.take s.pktlen ++ [ch],
                     pktlen := s.pktlen + 1 }
  if s1.ncrc = 1 then
    let r := zm_dataevent f s1
    ⟨{ r.s with pktlen := 0, ncrc := 0 }, r.out, r.rcv, r.events, r.ret,
     r.discard⟩
  else if s1.ncrc > 1 then noActionStep { s1 with ncrc := s1.ncrc - 1 }
  else noActionStep s1

/-- Handle one byte in `PSTATE_DATA` (`zm_data`): ZDLE escapes, an
escaped ZCRCE/ZCRCG/ZCRCQ/ZCRCW starts the CRC countdown, a full packet
buffer is a fatal parse error (return -1, byte not stored). -/
def zm_data (f : Orecv) (s : ZmState) (ch : Nat) : StepOut :=
  if ch = ZDLE ∧ s.esc = false then noActionStep { s with esc := true }
  else if s.pktlen ≥ ZM_PKTBUFSIZE then ⟨s, [], [], [], -1, false⟩
  else if s.esc then
    if ch = ZCRCW ∨ ch = ZCRCE ∨ ch = ZCRCG ∨ ch = ZCRCQ then
      zm_data_store f
        { s with esc := false, pkttype := ch, psubstate := .crc,
                 ncrc := if s.hdrfmt = ZBIN32 then 5 else 3 }
        ch
    else
      zm_data_store f { s with esc := false }
        (if ch = ZRUB0 then ASCII_DEL
         else if ch = ZRUB1 then 0xff else ch ^^^ 0x40)
  else zm_data_store f s ch

/-- Dispatch one byte to the handler of the current parser state
(the `switch (pzm->pstate)` of `zm_parse`). -/
def zm_dispatch (f : Orecv) (s : ZmState) (ch : Nat) : StepOut :=
  match s.pstate with
  | .idle => zm_idle f s ch
  | .header => zm_header f s ch
  | .data => zm_data f s ch

/-- Prepend the effects of one processed byte to the result of parsing
the remaining bytes. -/
def prependStep (st : StepOut) (r : ParseOut) : ParseOut :=
  ⟨r.s, st.out ++ r.out, st.rcv ++ r.rcv, st.events ++ r.events, r.ret,
   r.stopped⟩

/-- Turn the step that ended a `feed` call early into its result. -/
def stopStep (st : StepOut) : ParseOut :=
  ⟨st.s, st.out, st.rcv, st.events, st.ret, true⟩

/-- Drive the parser over a buffer of received bytes (`zm_parse`).  Five
consecutive CAN characters flush the receive window and raise
`ZME_CANCEL`; XON and XOFF are skipped; a nonzero handler return ends the
call with that value, and a transition that discarded the receive window
ends the byte loop (both are recorded in `stopped`). -/
def zm_parse (f : Orecv) : ZmState → List Nat → ParseOut
  | s, [] => ⟨s, [], [], [], 0, false⟩
  | s, ch :: rest =>
    if ch = ASCII_CAN ∧ s.ncan + 1 ≥ 5 then
      stopStep (zm_event f { s with ncan := s.ncan + 1 } ZME_CANCEL)
    else
      let s1 := if ch = ASCII_CAN then { s with ncan := s.ncan + 1 }
                else { s with ncan := 0 }
      if ch = ASCII_XON ∨ ch = ASCII_XOFF then zm_parse f s1 rest
      else
        let st := zm_dispatch f s1 ch
        if st.ret ≠ 0 ∨ st.discard = true then stopStep st
        else prependStep st (zm_parse f st.s rest)

/-- Feed received bytes to the engine (`zmr_receive`, the public entry
that wraps `zm_parse`). -/
def zmr_receive (f : Orecv) (s : ZmState) (input : List Nat) : ParseOut :=
  zm_parse f s input

/-- Initialize a session (`zmr_initialize`).  The source `malloc`s the
structure and assigns only the event table, states, callbacks and
timeout, so every other field keeps its incoming (indeterminate) value,
modelled by the parameter. -/
def zmr_initialize (s : ZmState) : ZmState :=
  { s with state := .start, pstate := .idle, psubstate := .zpad,
           timeout := CONFIG_SYSTEM_ZMODEM_CONNTIME }

/-- A session value with every field zeroed, standing in for one concrete
choice of the indeterminate malloc contents. -/
def zeroState : ZmState :=
  ⟨.start, .idle, .zpad, false, false, false, false, false, false, false,
   0, List.replicate 9 0, 0, [], 0, 0, 0, 0, 0, 0, 0, 0, 0, 0, 0, 0, 0, 0,
   none, none⟩

/-- A freshly initialized session. -/
def freshSession : ZmState := zmr_initialize zeroState

/-- An `on_receive` callback that always succeeds with 0. -/
def orecvZero : Orecv := fun _ _ => 0

/-! Claim theorems. -/

/-- C2: in state READING, for every DATARCVD event whose data-packet CRC
verified (CRKOK set, and whose payload the host accepts), the handler
advances `offset` by exactly `pktlen`, and a ZACK header carrying the
updated offset verbatim is written if and only if the packet type is
ZCRCQ or ZCRCW. -/
theorem claim2 (f : Orecv) (s : ZmState) (_hst : s.state = .reading)
    (hc : s.crkok = true)
    (hr : 0 ≤ f (s.pktbuf.take s.pktlen) (s.f0 == ZCNL)) :
    (zmr_filedata f s).s.offset = s.offset + s.pktlen ∧
    (zmr_filedata f s).out =
      (if s.pkttype = ZCRCQ ∨ s.pkttype = ZCRCW then
        zm_sendhexhdr ZACK (zm_be32toby (s.offset + s.pktlen))
      else []) := by
  unfold zmr_filedata
  rw [hc]
  simp only [Bool.true_eq_false, if_false, if_neg (not_lt.mpr hr)]
  by_cases hew : s.pkttype = ZCRCE ∨ s.pkttype = ZCRCW <;>
    by_cases hqw : s.pkttype = ZCRCQ ∨ s.pkttype = ZCRCW <;>
      simp [hew, hqw, zm_readstate]

/-- Witness for C2 at a concrete READING session holding a ZCRCW packet. -/
def sessCrcOkW : ZmState :=
  { freshSession with state := .reading, crkok := true, pkttype := ZCRCW,
                      pktbuf := [104, 105], pktlen := 2, offset := 3 }

/-- C2 witness: the theorem applied to the concrete session `sessCrcOkW`
with the always-succeeding callback. -/
theorem claim2_witness :
    sessCrcOkW.crkok = true ∧
    0 ≤ orecvZero (sessCrcOkW.pktbuf.take sessCrcOkW.pktlen)
        (sessCrcOkW.f0 == ZCNL) ∧
    (zmr_filedata orecvZero sessCrcOkW).s.offset =
      sessCrcOkW.offset + sessCrcOkW.pktlen ∧
    (zmr_filedata orecvZero sessCrcOkW).out =
      zm_sendhexhdr ZACK (zm_be32toby (sessCrcOkW.offset + sessCrcOkW.pktlen)) :=
  ⟨rfl, by decide,
   (claim2 orecvZero sessCrcOkW rfl rfl (by decide)).1,
   ((claim2 orecvZero sessCrcOkW rfl rfl (by decide)).2).trans
     (if_pos (Or.inr rfl))⟩

/-- C3: in state READING, for every DATARCVD event whose data-packet CRC
failed (CRKOK clear), `on_receive` is not called and `nerrors` increments
by exactly 1; if `nerrors` then exceeds MAXERRORS the 18-byte cancel
sequence (8 CAN then 10 BS) is written and the handler returns `-EIO_errno`,
otherwise the session returns to READREADY and sends the attn string
followed by a ZRPOS header carrying the current offset. -/
theorem claim3 (f : Orecv) (s : ZmState) (_hst : s.state = .reading)
    (hc : s.crkok = false) :
    (zmr_filedata f s).rcv = [] ∧
    (zmr_filedata f s).s.nerrors = s.nerrors + 1 ∧
    (s.nerrors + 1 > CONFIG_SYSTEM_ZMODEM_MAXERRORS →
      (zmr_filedata f s).out = g_canistr ∧
      g_canistr = List.replicate 8 ASCII_CAN ++ List.replicate 10 ASCII_BS ∧
      g_canistr.length = 18 ∧
      (zmr_filedata f s).ret = -EIO_errno) ∧
    (¬ s.nerrors + 1 > CONFIG_SYSTEM_ZMODEM_MAXERRORS →
      (zmr_filedata f s).s.state = .readready ∧
      (zmr_filedata f s).out =
        zmrAttnBytes s ++ zm_sendhexhdr ZRPOS (zm_be32toby s.offset) ∧
      (zmr_filedata f s).ret = 0) := by
  unfold zmr_filedata
  rw [hc]
  by_cases hn : s.nerrors + 1 > CONFIG_SYSTEM_ZMODEM_MAXERRORS
  · simp only [if_pos rfl, if_pos hn]
    refine ⟨rfl, rfl, fun _ => ⟨rfl, by decide, by decide, rfl⟩, fun h => absurd hn h⟩
  · simp only [if_pos rfl, if_neg hn]
    refine ⟨?_, ?_, fun h => absurd h hn, fun _ => ⟨?_, ?_, ?_⟩⟩ <;>
      · unfold zmr_fileerror zmrAttnBytes
        cases s.attn <;> simp

/-- Witness for C3 at a concrete READING session with a failed CRC and no
attention string configured. -/
def sessCrcBad : ZmState :=
  { freshSession with state := .reading, crkok := false, offset := 5 }

/-- C3 witness: the theorem applied to `sessCrcBad`; the error count is
below the limit so the READREADY/ZRPOS branch is exercised. -/
theorem claim3_witness :
    sessCrcBad.crkok = false ∧
    (zmr_filedata orecvZero sessCrcBad).rcv = [] ∧
    (zmr_filedata orecvZero sessCrcBad).s.nerrors = sessCrcBad.nerrors + 1 ∧
    (zmr_filedata orecvZero sessCrcBad).s.state = .readready ∧
    (zmr_filedata orecvZero sessCrcBad).out =
      zmrAttnBytes sessCrcBad ++
        zm_sendhexhdr ZRPOS (zm_be32toby sessCrcBad.offset) ∧
    (zmr_filedata orecvZero sessCrcBad).ret = 0 :=
  ⟨rfl,
   (claim3 orecvZero sessCrcBad rfl rfl).1,
   (claim3 orecvZero sessCrcBad rfl rfl).2.1,
   ((claim3 orecvZero sessCrcBad rfl rfl).2.2.2 (by decide)).1,
   ((claim3 orecvZero sessCrcBad rfl rfl).2.2.2 (by decide)).2.1,
   ((claim3 orecvZero sessCrcBad rfl rfl).2.2.2 (by decide)).2.2⟩

/-- C4: for every completely collected header, the state-machine event
named by the header's type byte is raised if and only if the CRC check
passes (CRC-16 over the 7 unescaped bytes equal to 0 for ZBIN and ZHEX,
CRC-32 over the 9 unescaped bytes equal to the residue 0xDEBB20E3 for
ZBIN32); on CRC failure a ZNAK header is sent and the parser returns to
IDLE without raising the typed event. -/
theorem claim4 (f : Orecv) (s : ZmState) :
    ((zm_hdrevent f s).events =
      if zm_hdrcrcok s = true then [s.hdrdata.getD 0 0] else []) ∧
    (zm_hdrcrcok s = false →
      (zm_hdrevent f s).out = zm_sendhexhdr ZNAK g_zeroes ∧
      (zm_hdrevent f s).s.pstate = .idle ∧
      (zm_hdrevent f s).s.psubstate = .zpad) := by
  constructor
  · unfold zm_hdrevent
    by_cases h : zm_hdrcrcok s = true
    · simp [h, zm_event]
    · simp [h, zm_nakhdr]
  · intro h
    unfold zm_hdrevent
    rw [h]
    simp [zm_nakhdr]

/-- Witness session for C4: a ZBIN header whose collected bytes fail the
CRC-16 check. -/
def sessBadHdr : ZmState :=
  { freshSession with pstate := .header, hdrfmt := ZBIN,
                      hdrdata := [9, 9, 9, 9, 9, 9, 9, 0, 0] }

/-- C4 witness: the theorem applied to the concrete bad-CRC header
session `sessBadHdr`. -/
theorem claim4_witness :
    zm_hdrcrcok sessBadHdr = false ∧
    (zm_hdrevent orecvZero sessBadHdr).events = [] ∧
    (zm_hdrevent orecvZero sessBadHdr).out = zm_sendhexhdr ZNAK g_zeroes ∧
    (zm_hdrevent orecvZero sessBadHdr).s.pstate = .idle :=
  ⟨by decide,
   ((claim4 orecvZero sessBadHdr).1).trans (by rw [if_neg]; decide),
   ((claim4 orecvZero sessBadHdr).2 (by decide)).1,
   ((claim4 orecvZero sessBadHdr).2 (by decide)).2.1⟩

/-- C6: for every byte and every combination of the ESCCTRL and ATSIGN
flags, decoding the output of the ZDLE escape encoder yields the byte
again, and the encoded form contains no unescaped occurrence of the
forbidden byte set: either the byte is emitted plain and is not
forbidden, or it is emitted as a two-byte escape whose second byte is not
forbidden under any flag combination. -/
theorem claim6 : ∀ (ec a : Bool) (b : Fin 256),
    zm_unescape false
      (zm_putzdle { freshSession with escctrl := ec, atsign := a } b.val).1 =
      [b.val] ∧
    (((zm_putzdle { freshSession with escctrl := ec, atsign := a } b.val).1 =
        [b.val] ∧ zm_needzdle ec a b.val = false) ∨
      ((zm_putzdle { freshSession with escctrl := ec, atsign := a } b.val).1.length = 2 ∧
       (zm_putzdle { freshSession with escctrl := ec, atsign := a } b.val).1.getD 0 0 = ZDLE ∧
       ∀ e2 a2 : Bool,
         zm_needzdle e2 a2
           ((zm_putzdle { freshSession with escctrl := ec, atsign := a } b.val).1.getD 1 0) =
           false)) := by decide

/-- Composition of incremental CRC-16 updates: feeding a concatenation is
feeding the pieces in sequence. -/
theorem crc16part_append (xs ys : List Nat) (c : Nat) :
    crc16part (xs ++ ys) c = crc16part ys (crc16part xs c) := by
  simp [crc16part, List.foldl_append]

/-- C7 counterexample: for the concrete ZRINIT header with zero payload,
the CRC field emitted by `zm_sendhexhdr` (output bytes 14-17) is not the
hex encoding of the CRC-16 over exactly the five bytes type plus payload,
refuting the claim that no filler bytes are folded into the CRC. -/
theorem claim7_counterexample :
    ((zm_sendhexhdr ZRINIT g_zeroes).drop 14).take 4 ≠
      zm_puthex8 ((crc16part [ZRINIT &&& 0xff, 0, 0, 0, 0] 0 >>> 8) &&& 0xff) ++
        zm_puthex8 (crc16part [ZRINIT &&& 0xff, 0, 0, 0, 0] 0 &&& 0xff) := by
  decide

/-- C7 amended: for every hex (ZHEX) header emitted by the encoder, the
16-bit CRC field is computed over the five bytes type and p0..p3
followed by two zero filler bytes folded into the CRC computation. -/
theorem claim7_amended (t : Nat) (b : List Nat) :
    zm_sendhexhdr t b =
      [ZPAD, ZPAD, ZDLE, ZHEX] ++ zm_puthex8 (t &&& 0xff) ++
      zm_puthex8 (b.getD 0 0) ++ zm_puthex8 (b.getD 1 0) ++
      zm_puthex8 (b.getD 2 0) ++ zm_puthex8 (b.getD 3 0) ++
      zm_puthex8 ((crc16part ((t &&& 0xff) ::
          [b.getD 0 0, b.getD 1 0, b.getD 2 0, b.getD 3 0, 0, 0]) 0 >>> 8) &&& 0xff) ++
      zm_puthex8 (crc16part ((t &&& 0xff) ::
          [b.getD 0 0, b.getD 1 0, b.getD 2 0, b.getD 3 0, 0, 0]) 0 &&& 0xff) ++
      [0x0d, 0x0a] ++
      (if t ≠ ZACK ∧ t ≠ ZFIN then [ASCII_XON] else []) := by
  have h : crc16part ((t &&& 0xff) ::
      [b.getD 0 0, b.getD 1 0, b.getD 2 0, b.getD 3 0, 0, 0]) 0 =
      crc16part [0, 0]
        (crc16part [b.getD 0 0, b.getD 1 0, b.getD 2 0, b.getD 3 0]
          (crc16part [t &&& 0xff] 0)) := by
    rw [show (t &&& 0xff) ::
        [b.getD 0 0, b.getD 1 0, b.getD 2 0, b.getD 3 0, 0, 0] =
        ([t &&& 0xff] ++ [b.getD 0 0, b.getD 1 0, b.getD 2 0, b.getD 3 0]) ++
          [0, 0] from rfl]
    rw [crc16part_append, crc16part_append]
  rw [h]
  rfl

/-- C8 concrete evaluation: on the first TIMEOUT in state START (timeout
count 0) the action `zmr_startto` returns `-ETIMEDOUT` and resends
nothing, while with a timeout count of 4 (the fifth consecutive timeout)
it resends ZRINIT and returns 0 -- the retry condition is inverted with
respect to the claim. -/
theorem claim8_code_evaluation :
    (zmr_startto orecvZero freshSession).ret = -ETIMEDOUT ∧
    (zmr_startto orecvZero freshSession).out = [] ∧
    (zmr_startto orecvZero { freshSession with ntimeouts := 4 }).ret = 0 ∧
    (zmr_startto orecvZero { freshSession with ntimeouts := 4 }).out =
      zm_sendhexhdr ZRINIT [0, 2, 0, 0] := by
  refine ⟨rfl, rfl, rfl, ?_⟩
  decide

/-- C1 concrete evaluation: raising `ZME_CANCEL` falls through to the
wildcard `ZME_ERROR` row in every state (no table carries a
`ZME_CANCEL` entry), so it writes nothing, calls no callback, and
returns 0; feeding five CAN bytes to a fresh session therefore flushes
the window (the call stops) but sends no cancel sequence and returns 0
instead of `-ECANCELED`. -/
theorem claim1_code_evaluation :
    (∀ (f : Orecv) (s : ZmState),
      (zm_event f s ZME_CANCEL).out = [] ∧
      (zm_event f s ZME_CANCEL).rcv = [] ∧
      (zm_event f s ZME_CANCEL).ret = 0 ∧
      (zm_event f s ZME_CANCEL).s.wait = true) ∧
    (zmr_receive orecvZero freshSession (List.replicate 5 ASCII_CAN)).ret = 0 ∧
    (zmr_receive orecvZero freshSession (List.replicate 5 ASCII_CAN)).out = [] ∧
    (zmr_receive orecvZero freshSession (List.replicate 5 ASCII_CAN)).events =
      [ZME_CANCEL] ∧
    (zmr_receive orecvZero freshSession (List.replicate 5 ASCII_CAN)).stopped =
      true := by
  refine ⟨fun f s => ?_, by decide, by decide, by decide, by decide⟩
  unfold zm_event
  cases hst : s.state <;>
    simp [g_zmr_evtable, zm_lookup, zmr_error, g_zmr_start, g_zmr_initwait,
      g_zmr_fileinfo, g_zmr_crcwait, g_zmr_readready, g_zmr_reading,
      g_zmr_finish, g_zmr_command, g_zmr_message, g_zmr_done, ZME_CANCEL,
      ZME_ERROR, ZME_SINIT, ZME_FILE, ZME_RQINIT, ZME_FIN, ZME_NAK,
      ZME_FREECNT, ZME_COMMAND, ZME_STDERR, ZME_TIMEOUT, ZME_DATARCVD,
      ZME_CRC, ZME_DATA, ZME_EOF, ZME_OO, ZSINIT, ZFILE, ZRQINIT, ZFIN,
      ZNAK, ZFREECNT, ZCOMMAND, ZSTDERR, ZCRC, ZDATA, ZEOF]

/-- C10: in parser state IDLE with the OO flag set, a ZDLE byte that
does not immediately follow a ZPAD (idle substate ZPAD) is counted as the
first 'O' of the end-of-session sequence, so the two-byte input
ZDLE,'O' (with no preceding ZPAD, and without completing a CAN burst)
produces exactly the same feed result as the input "OO", raising the OO
event. -/
theorem claim10 (f : Orecv) (s : ZmState) (h1 : s.pstate = .idle)
    (h2 : s.psubstate = .zpad) (h3 : s.oo = true) (h4 : s.ncan ≤ 3) :
    zm_parse f s [ZDLE, 0x4f] = zm_parse f s [0x4f, 0x4f] ∧
    (zm_parse f s [ZDLE, 0x4f]).events = [ZME_OO] := by
  have hc : ¬ ((0x18 : Nat) = ASCII_CAN ∧ s.ncan + 1 ≥ 5) := by
    unfold ASCII_CAN
    omega
  have e1 : zm_parse f s [ZDLE, 0x4f] =
      zm_parse f { s with ncan := s.ncan + 1, psubstate := .oo } [0x4f] := by
    simp only [zm_parse, ZDLE, if_neg hc]
    simp [zm_dispatch, h1, zm_idle, ZPAD, ZDLE, h2, h3, noActionStep,
      prependStep, ASCII_CAN, ASCII_XON, ASCII_XOFF]
  have e2 : zm_parse f s [0x4f, 0x4f] =
      zm_parse f { s with ncan := 0, psubstate := .oo } [0x4f] := by
    simp only [zm_parse]
    simp [zm_dispatch, h1, zm_idle, ZPAD, ZDLE, h2, h3, noActionStep,
      prependStep, ASCII_CAN, ASCII_XON, ASCII_XOFF]
  have e3 : ∀ n : Nat, zm_parse f { s with ncan := n, psubstate := .oo } [0x4f] =
      (if (zm_event f { s with ncan := 0, psubstate := .zpad, oo := false }
            ZME_OO).ret ≠ 0 ∨
          (zm_event f { s with ncan := 0, psubstate := .zpad, oo := false }
            ZME_OO).discard = true then
        stopStep (zm_event f { s with ncan := 0, psubstate := .zpad, oo := false }
          ZME_OO)
      else
        prependStep
          (zm_event f { s with ncan := 0, psubstate := .zpad, oo := false }
            ZME_OO)
          (zm_parse f
            (zm_event f { s with ncan := 0, psubstate := .zpad, oo := false }
              ZME_OO).s [])) := by
    intro n
    simp only [zm_parse]
    simp [zm_dispatch, h1, zm_idle, ZPAD, ZDLE, h3, noActionStep,
      prependStep, ASCII_CAN, ASCII_XON, ASCII_XOFF]
  constructor
  · rw [e1, e2, e3, e3]
  · rw [e1, e3]
    split <;> simp [stopStep, prependStep, zm_parse, zm_event]

/-- C10 witness session: a FINISH-state session expecting "OO". -/
def sessFinishOO : ZmState := { freshSession with state := .finish, oo := true }

/-- C10 witness: the theorem applied to the concrete FINISH session. -/
theorem claim10_witness :
    sessFinishOO.pstate = .idle ∧ sessFinishOO.psubstate = .zpad ∧
    sessFinishOO.oo = true ∧ sessFinishOO.ncan ≤ 3 ∧
    zm_parse orecvZero sessFinishOO [ZDLE, 0x4f] =
      zm_parse orecvZero sessFinishOO [0x4f, 0x4f] ∧
    (zm_parse orecvZero sessFinishOO [ZDLE, 0x4f]).events = [ZME_OO] :=
  ⟨rfl, rfl, rfl, by decide,
   (claim10 orecvZero sessFinishOO rfl rfl rfl (by decide)).1,
   (claim10 orecvZero sessFinishOO rfl rfl rfl (by decide)).2⟩

/-! Chunking (claim C5). -/

/-- Sequential composition of two feed results: the effects of the first
call followed by the effects of a second call made from its final
session. -/
def ParseOut.seq (r1 r2 : ParseOut) : ParseOut :=
  ⟨r2.s, r1.out ++ r2.out, r1.rcv ++ r2.rcv, r1.events ++ r2.events,
   r2.ret, r2.stopped⟩

/-- Feed a stream chunk by chunk through successive `zm_parse` calls. -/
def zm_parseChunks (f : Orecv) : ZmState → List (List Nat) → ParseOut
  | s, [] => ⟨s, [], [], [], 0, false⟩
  | s, c :: rest =>
    (zm_parse f s c).seq (zm_parseChunks f (zm_parse f s c).s rest)

/-- Splitting lemma: when a single-call parse of `A ++ B` never stops
early (no CAN burst, no nonzero return, no window-discarding transition),
it equals parsing `A` and then parsing `B` from the resulting session. -/
theorem zm_parse_append (f : Orecv) :
    ∀ (A : List Nat) (s : ZmState) (B : List Nat),
      (zm_parse f s (A ++ B)).stopped = false →
      zm_parse f s (A ++ B) =
        (zm_parse f s A).seq (zm_parse f (zm_parse f s A).s B) := by
  intro A
  induction A with
  | nil =>
    intro s B _
    simp [zm_parse, ParseOut.seq]
  | cons ch A2 ih =>
    intro s B hstop
    rw [List.cons_append] at hstop ⊢
    by_cases hcan : ch = ASCII_CAN ∧ s.ncan + 1 ≥ 5
    · simp only [zm_parse, if_pos hcan, stopStep] at hstop
      exact absurd hstop (by decide)
    · simp only [zm_parse, if_neg hcan] at hstop ⊢
      by_cases hxon : ch = ASCII_XON ∨ ch = ASCII_XOFF
      · simp only [if_pos hxon] at hstop ⊢
        exact ih _ B hstop
      · simp only [if_neg hxon] at hstop ⊢
        set s1 := if ch = ASCII_CAN then { s with ncan := s.ncan + 1 }
                  else { s with ncan := 0 } with hs1
        set st := zm_dispatch f s1 ch with hst
        by_cases hstop2 : st.ret ≠ 0 ∨ st.discard = true
        · simp only [if_pos hstop2, stopStep] at hstop
          exact absurd hstop (by decide)
        · simp only [if_neg hstop2] at hstop ⊢
          have hsub : (zm_parse f st.s (A2 ++ B)).stopped = false := by
            simpa [prependStep] using hstop
          rw [ih st.s B hsub]
          simp [prependStep, ParseOut.seq, List.append_assoc]

/-- A valid ZFIN hex header as received off the wire: ZPAD ZPAD ZDLE ZHEX
followed by the hex digits of type 8, zero payload, and CKC-16 0x022D. -/
def zfinHexHeader : List Nat :=
  [0x2a, 0x2a, 0x18, 0x42, 0x30, 0x38, 0x30, 0x30, 0x30, 0x30, 0x30, 0x30,
   0x30, 0x30, 0x30, 0x32, 0x32, 0x64]

/-- C5 counterexample: feeding two valid ZFIN headers in one call raises
only one FIN event (the FIN transition discards the rest of the receive
window), while feeding them as two chunks raises two, so the event
sequence depends on the partition. -/
theorem claim5_counterexample :
    (zm_parse orecvZero freshSession (zfinHexHeader ++ zfinHexHeader)).events =
      [ZME_FIN] ∧
    (zm_parseChunks orecvZero freshSession
        [zfinHexHeader, zfinHexHeader]).events = [ZME_FIN, ZME_FIN] ∧
    (zm_parse orecvZero freshSession (zfinHexHeader ++ zfinHexHeader)).events ≠
      (zm_parseChunks orecvZero freshSession
        [zfinHexHeader, zfinHexHeader]).events := by
  refine ⟨by decide, by decide, by decide⟩

/-- C5 amended: for every byte stream and every partition of it into
chunks, feeding the chunks through successive `zm_parse` calls produces
the identical result (same events, writes, callbacks, final session and
status) as feeding the stream in a single call, provided the single-call
parse never ends its byte loop early -- that is, no five-CAN burst
occurs, no handler returns a nonzero status, and no transition taken
discards the receive window. -/
theorem claim5_amended (f : Orecv) :
    ∀ (chunks : List (List Nat)) (s : ZmState),
      (zm_parse f s chunks.flatten).stopped = false →
      zm_parseChunks f s chunks = zm_parse f s chunks.flatten := by
  intro chunks
  induction chunks with
  | nil =>
    intro s _
    simp [zm_parseChunks, zm_parse]
  | cons c rest ih =>
    intro s hstop
    rw [List.flatten_cons] at hstop ⊢
    have e := zm_parse_append f c s rest.flatten hstop
    have hsub : (zm_parse f (zm_parse f s c).s rest.flatten).stopped = false := by
      rw [e] at hstop
      simpa [ParseOut.seq] using hstop
    rw [e]
    simp only [zm_parseChunks]
    rw [ih (zm_parse f s c).s hsub]

/-- C5 witness: a ZRQINIT hex header split after its seventh byte parses
chunked exactly as it does whole (the single-call parse never stops
early). -/
theorem claim5_witness :
    (zm_parse orecvZero freshSession
        ([(zm_sendhexhdr ZRQINIT g_zeroes).take 7,
          (zm_sendhexhdr ZRQINIT g_zeroes).drop 7]).flatten).stopped = false ∧
    zm_parseChunks orecvZero freshSession
        [(zm_sendhexhdr ZRQINIT g_zeroes).take 7,
         (zm_sendhexhdr ZRQINIT g_zeroes).drop 7] =
      zm_parse orecvZero freshSession
        ([(zm_sendhexhdr ZRQINIT g_zeroes).take 7,
          (zm_sendhexhdr ZRQINIT g_zeroes).drop 7]).flatten :=
  ⟨by decide,
   claim5_amended orecvZero
     [(zm_sendhexhdr ZRQINIT g_zeroes).take 7,
      (zm_sendhexhdr ZRQINIT g_zeroes).drop 7]
     freshSession (by decide)⟩

/-! Packet-length invariant (claim C9).  Every state-machine action
either leaves `pktlen` unchanged or resets it to 0; the parser only grows
`pktlen` under the overflow guard of `zm_data`. -/

/-- An action that leaves the packet length unchanged or clears it. -/
def ActionPreservesPktlen (a : Orecv → ZmState → ActOut) : Prop :=
  ∀ (f : Orecv) (s : ZmState),
    (a f s).s.pktlen = s.pktlen ∨ (a f s).s.pktlen = 0

theorem pk_zrinit : ActionPreservesPktlen zmr_zrinit := fun _ _ => Or.inl rfl

theorem pk_zsinit : ActionPreservesPktlen zmr_zsinit := fun _ _ => Or.inr rfl

theorem pk_startto : ActionPreservesPktlen zmr_startto := by
  intro f s
  unfold zmr_startto
  dsimp only
  repeat' split
  all_goals first
    | exact pk_zrinit f _
    | exact Or.inl rfl

theorem pk_zsrintdata : ActionPreservesPktlen zmr_zsrintdata := by
  intro f s
  unfold zmr_zsrintdata
  dsimp only
  repeat' split
  all_goals exact Or.inl rfl

theorem pk_freecnt : ActionPreservesPktlen zmr_freecnt := fun _ _ => Or.inl rfl

theorem pk_openfile (s : ZmState) (c : Nat) :
    (zmr_openfile s c).s.pktlen = s.pktlen := rfl

theorem pk_zcrc : ActionPreservesPktlen zmr_zcrc := fun _ _ => Or.inl rfl

theorem pk_nakcrc : ActionPreservesPktlen zmr_nakcrc := fun _ _ => Or.inl rfl

theorem pk_zfile : ActionPreservesPktlen zmr_zfile := fun _ _ => Or.inr rfl

theorem pk_fileerror (s : ZmState) (t d : Nat) :
    (zmr_fileerror s t d).s.pktlen = s.pktlen := by
  unfold zmr_fileerror
  dsimp only
  cases s.attn <;> rfl

theorem pk_zdata : ActionPreservesPktlen zmr_zdata := by
  intro f s
  unfold zmr_zdata
  repeat' split
  all_goals first
    | exact Or.inl (pk_fileerror _ _ _)
    | exact Or.inr rfl

theorem pk_badrpos : ActionPreservesPktlen zmr_badrpos := fun _ _ => Or.inl rfl

theorem pk_filename : ActionPreservesPktlen zmr_filename := by
  intro f s
  unfold zmr_filename
  dsimp only
  repeat' split
  all_goals exact Or.inl rfl

theorem pk_filedata : ActionPreservesPktlen zmr_filedata := by
  intro f s
  unfold zmr_filedata
  dsimp only
  repeat' split
  all_goals first
    | exact Or.inl rfl
    | exact Or.inr rfl
    | exact Or.inl (pk_fileerror _ _ _)

theorem pk_rcvto : ActionPreservesPktlen zmr_rcvto := by
  intro f s
  unfold zmr_rcvto
  dsimp only
  repeat' split
  all_goals first
    | exact Or.inl rfl
    | exact pk_zrinit f _

theorem pk_fileto : ActionPreservesPktlen zmr_fileto := by
  intro f s
  unfold zmr_fileto
  dsimp only
  repeat' split
  all_goals first
    | exact pk_zrinit f _
    | exact pk_nakcrc f _
    | exact pk_badrpos f _

theorem pk_zeof : ActionPreservesPktlen zmr_zeof := by
  intro f s
  unfold zmr_zeof
  repeat' split
  all_goals first
    | exact Or.inl rfl
    | exact pk_zrinit f s

theorem pk_cmddata : ActionPreservesPktlen zmr_cmddata := fun _ _ => Or.inl rfl

theorem pk_zfin : ActionPreservesPktlen zmr_zfin := fun _ _ => Or.inl rfl

theorem pk_finto : ActionPreservesPktlen zmr_finto := fun _ _ => Or.inl rfl

theorem pk_oo : ActionPreservesPktlen zmr_oo := fun _ _ => Or.inl rfl

theorem pk_message : ActionPreservesPktlen zmr_message := fun _ _ => Or.inr rfl

theorem pk_zstderr : ActionPreservesPktlen zmr_zstderr := fun _ _ => Or.inl rfl

theorem pk_cmdto : ActionPreservesPktlen zmr_cmdto := fun _ _ => Or.inl rfl

theorem pk_doneto : ActionPreservesPktlen zmr_doneto := fun _ _ => Or.inl rfl

theorem pk_error : ActionPreservesPktlen zmr_error := fun _ _ => Or.inl rfl

/-- All actions reachable from a transition table preserve the packet
length, provided each row's action does. -/
theorem pk_lookup (l : List ZmTransition) (ev : Nat)
    (h : ∀ t ∈ l, ActionPreservesPktlen t.action) :
    ActionPreservesPktlen (zm_lookup l ev).action := by
  induction l with
  | nil => exact pk_error
  | cons e rest ih =>
    simp only [zm_lookup]
    split
    · exact h e (List.mem_cons_self e rest)
    · exact ih fun t ht => h t (List.mem_cons_of_mem e ht)

/-- Every row of every receiver transition table carries a
packet-length-preserving action. -/
theorem pk_tables (st : ZmrState) :
    ∀ t ∈ g_zmr_evtable st, ActionPreservesPktlen t.action := by
  cases st <;>
    simp only [g_zmr_evtable, g_zmr_start, g_zmr_initwait, g_zmr_fileinfo,
      g_zmr_crcwait, g_zmr_readready, g_zmr_reading, g_zmr_finish,
      g_zmr_command, g_zmr_message, g_zmr_done, List.forall_mem_cons,
      List.forall_mem_nil, and_true]
  case start =>
    exact ⟨pk_zsinit, pk_zfile, pk_zrinit, pk_zfin, pk_zrinit, pk_freecnt,
      pk_cmddata, pk_message, pk_startto, pk_error, fun t ht => absurd ht (List.not_mem_nil t)⟩
  case initwait => exact ⟨pk_zsrintdata, pk_rcvto, pk_error, fun t ht => absurd ht (List.not_mem_nil t)⟩
  case fileinfo => exact ⟨pk_filename, pk_rcvto, pk_error, fun t ht => absurd ht (List.not_mem_nil t)⟩
  case crcwait =>
    exact ⟨pk_zcrc, pk_nakcrc, pk_zrinit, pk_zfin, pk_fileto, pk_error, fun t ht => absurd ht (List.not_mem_nil t)⟩
  case readready =>
    exact ⟨pk_zdata, pk_badrpos, pk_zeof, pk_zrinit, pk_badrpos, pk_zfin,
      pk_fileto, pk_error, fun t ht => absurd ht (List.not_mem_nil t)⟩
  case reading =>
    exact ⟨pk_zrinit, pk_zfile, pk_badrpos, pk_zfin, pk_zdata, pk_zeof,
      pk_filedata, pk_fileto, pk_error, fun t ht => absurd ht (List.not_mem_nil t)⟩
  case finish =>
    exact ⟨pk_zrinit, pk_zfile, pk_zfin, pk_zfin, pk_finto, pk_oo, pk_error, fun t ht => absurd ht (List.not_mem_nil t)⟩
  case command => exact ⟨pk_cmddata, pk_cmdto, pk_error, fun t ht => absurd ht (List.not_mem_nil t)⟩
  case message => exact ⟨pk_zstderr, pk_cmdto, pk_error, fun t ht => absurd ht (List.not_mem_nil t)⟩
  case done => exact ⟨pk_doneto, pk_error, fun t ht => absurd ht (List.not_mem_nil t)⟩

/-- Raising any event leaves the packet length unchanged or clears it. -/
theorem pk_event (f : Orecv) (s : ZmState) (ev : Nat) :
    (zm_event f s ev).s.pktlen = s.pktlen ∨ (zm_event f s ev).s.pktlen = 0 :=
  pk_lookup (g_zmr_evtable s.state) ev (pk_tables s.state) f _

/-- A completed header event leaves the packet length unchanged or clears
it. -/
theorem pk_hdrevent (f : Orecv) (s : ZmState) :
    (zm_hdrevent f s).s.pktlen = s.pktlen ∨ (zm_hdrevent f s).s.pktlen = 0 := by
  unfold zm_hdrevent
  dsimp only
  split
  · exact pk_event f _ _
  · exact Or.inl rfl

/-- A completed data subpacket event only shrinks or clears the packet
length. -/
theorem pk_dataevent (f : Orecv) (s : ZmState) :
    (zm_dataevent f s).s.pktlen ≤ s.pktlen ∨ (zm_dataevent f s).s.pktlen = 0 := by
  unfold zm_dataevent
  dsimp only
  split
  · rcases pk_event f
      { s with pstate := .idle, psubstate := .zpad,
               crkok := crc32part (s.pktbuf.take s.pktlen) 0xffffffff == 0xdebb20e3,
               pktlen := s.pktlen - 5 } ZME_DATARCVD with h | h
    · exact Or.inl (h.trans_le (Nat.sub_le _ _))
    · exact Or.inr h
  · rcases pk_event f
      { s with pstate := .idle, psubstate := .zpad,
               crkok := crc16part (s.pktbuf.take s.pktlen) 0 == 0,
               pktlen := s.pktlen - 3 } ZME_DATARCVD with h | h
    · exact Or.inl (h.trans_le (Nat.sub_le _ _))
    · exact Or.inr h

/-- One IDLE byte leaves the packet length unchanged or clears it. -/
theorem pk_idle (f : Orecv) (s : ZmState) (ch : Nat) :
    (zm_idle f s ch).s.pktlen = s.pktlen ∨ (zm_idle f s ch).s.pktlen = 0 := by
  unfold zm_idle
  dsimp only
  repeat' split
  all_goals first
    | exact pk_event f _ _
    | exact Or.inl rfl

/-- One HEADER byte leaves the packet length unchanged or clears it. -/
theorem pk_header (f : Orecv) (s : ZmState) (ch : Nat) :
    (zm_header f s ch).s.pktlen = s.pktlen ∨ (zm_header f s ch).s.pktlen = 0 := by
  unfold zm_header
  dsimp only
  repeat' split
  all_goals first
    | exact pk_hdrevent f _
    | exact Or.inl rfl

/-- One DATA byte keeps the packet length within the buffer bound: the
overflow guard refuses to store the byte once `pktlen` reaches
`ZM_PKTBUFSIZE`. -/
theorem pk_data (f : Orecv) (s : ZmState) (ch : Nat)
    (h : s.pktlen ≤ ZM_PKTBUFSIZE) :
    (zm_data f s ch).s.pktlen ≤ ZM_PKTBUFSIZE := by
  have store : ∀ (s1 : ZmState) (c : Nat), s1.pktlen < ZM_PKTBUFSIZE →
      (zm_data_store f s1 c).s.pktlen ≤ ZM_PKTBUFSIZE := by
    intro s1 c hlt
    simp only [zm_data_store]
    repeat' split
    all_goals first
      | exact Nat.zero_le _
      | exact hlt
  simp only [zm_data]
  repeat' split
  all_goals first
    | exact h
    | exact store _ _ (show s.pktlen < ZM_PKTBUFSIZE by omega)

/-- One dispatched byte keeps the packet length within the buffer
bound. -/
theorem pk_dispatch (f : Orecv) (s : ZmState) (ch : Nat)
    (h : s.pktlen ≤ ZM_PKTBUFSIZE) :
    (zm_dispatch f s ch).s.pktlen ≤ ZM_PKTBUFSIZE := by
  unfold zm_dispatch
  split
  · rcases pk_idle f s ch with h2 | h2 <;> omega
  · rcases pk_header f s ch with h2 | h2 <;> omega
  · exact pk_data f s ch h

/-- Feeding any input keeps the packet length within the buffer bound. -/
theorem pk_parse (f : Orecv) :
    ∀ (input : List Nat) (s : ZmState), s.pktlen ≤ ZM_PKTBUFSIZE →
      (zm_parse f s input).s.pktlen ≤ ZM_PKTBUFSIZE := by
  intro input
  induction input with
  | nil => intro s h; exact h
  | cons ch rest ih =>
    intro s h
    simp only [zm_parse]
    repeat' split
    all_goals first
      | exact ih _ h
      | (rcases pk_event f { s with ncan := s.ncan + 1 } ZME_CANCEL with h2 | h2 <;>
          simp only [stopStep] <;> rw [h2] <;> first
            | exact h
            | exact Nat.zero_le _)
      | (simp only [stopStep]; exact pk_dispatch f _ ch h)
      | (simp only [prependStep]; exact ih _ (pk_dispatch f _ ch h))

/-- C9: for every session state and every input, `pktlen` never exceeds
`PKTBUFSIZE` (feeding preserves the bound), and when a data byte would
overflow the packet buffer the byte is not stored (buffer and length are
left untouched) and the feed call aborts with the fatal parse error -1.
The overflow hypothesis singles out an actual data byte: one that is not
an escape-introducing ZDLE, not the fifth CAN of a cancel burst, and not
the XON/XOFF flow control skipped by the parser. -/
theorem claim9 :
    (∀ (f : Orecv) (s : ZmState) (input : List Nat),
      s.pktlen ≤ ZM_PKTBUFSIZE →
      (zm_parse f s input).s.pktlen ≤ ZM_PKTBUFSIZE) ∧
    (∀ (f : Orecv) (s : ZmState) (ch : Nat) (rest : List Nat),
      s.pstate = .data → ZM_PKTBUFSIZE ≤ s.pktlen →
      ¬(ch = ZDLE ∧ s.esc = false) →
      ¬(ch = ASCII_CAN ∧ s.ncan + 1 ≥ 5) →
      ch ≠ ASCII_XON → ch ≠ ASCII_XOFF →
      (zm_parse f s (ch :: rest)).ret = -1 ∧
      (zm_parse f s (ch :: rest)).stopped = true ∧
      (zm_parse f s (ch :: rest)).s.pktbuf = s.pktbuf ∧
      (zm_parse f s (ch :: rest)).s.pktlen = s.pktlen ∧
      (zm_parse f s (ch :: rest)).out = [] ∧
      (zm_parse f s (ch :: rest)).rcv = []) := by
  constructor
  · intro f s input h
    exact pk_parse f input s h
  · intro f s ch rest hp hlen hdle hcan hxon hxoff
    have hdata : ∀ s1 : ZmState, s1.pstate = PState.data → s1.esc = s.esc →
        s1.pktlen = s.pktlen →
        zm_dispatch f s1 ch = ⟨s1, [], [], [], -1, false⟩ := by
      intro s1 h1 h2 h3
      simp only [zm_dispatch, h1]
      simp only [zm_data]
      rw [if_neg fun hh => hdle ⟨hh.1, h2 ▸ hh.2⟩, if_pos (h3 ▸ hlen)]
    have hx : ¬ (ch = ASCII_XON ∨ ch = ASCII_XOFF) := by tauto
    simp only [zm_parse, if_neg hcan, if_neg hx]
    by_cases hch : ch = ASCII_CAN
    · simp only [if_pos hch, hdata { s with ncan := s.ncan + 1 } hp rfl rfl]
      simp [stopStep]
    · simp only [if_neg hch, hdata { s with ncan := 0 } hp rfl rfl]
      simp [stopStep]

/-- C9 witness session: a DATA-state session whose packet buffer is
already full. -/
def sessOverflow : ZmState :=
  { freshSession with pstate := .data, pktlen := ZM_PKTBUFSIZE }

/-- C9 witness: both conjuncts of the theorem applied to concrete
sessions; the data byte 0x41 at a full buffer yields the -1 abort with
nothing stored. -/
theorem claim9_witness :
    sessOverflow.pstate = .data ∧ ZM_PKTBUFSIZE ≤ sessOverflow.pktlen ∧
    (zm_parse orecvZero sessOverflow [0x41]).ret = -1 ∧
    (zm_parse orecvZero sessOverflow [0x41]).s.pktlen = sessOverflow.pktlen ∧
    (zm_parse orecvZero sessOverflow [0x41]).s.pktbuf = sessOverflow.pktbuf ∧
    freshSession.pktlen ≤ ZM_PKTBUFSIZE ∧
    (zm_parse orecvZero freshSession [0x41]).s.pktlen ≤ ZM_PKTBUFSIZE :=
  ⟨rfl, by decide,
   (claim9.2 orecvZero sessOverflow 0x41 [] rfl (by decide) (by decide)
     (by decide) (by decide) (by decide)).1,
   (claim9.2 orecvZero sessOverflow 0x41 [] rfl (by decide) (by decide)
     (by decide) (by decide) (by decide)).2.2.2.1,
   (claim9.2 orecvZero sessOverflow 0x41 [] rfl (by decide) (by decide)
     (by decide) (by decide) (by decide)).2.2.1,
   by decide,
   claim9.1 orecvZero freshSession [0x41] (by decide)⟩

end Cliserver
